import Mathlib

/-!
Shallow embedding of the orchestration core of dreulavelle/Ragnar.

The embedded code lives in:
  * `src/ai/ollama_client.py`  — `ModelInfo`, `OllamaClient` (the model provisioner)
  * `src/program.py`           — `Program` (the orchestrator)
  * `src/services/discord.py`  — `DiscordService` (the only concrete service)
  * `src/settings/models.py`   — the pydantic settings models

Modelling conventions:
  * Python exceptions escaping a function are `Except.error msg`; a normal
    return is `Except.ok`.
  * External side effects (backend calls, client teardown, scheduler control,
    settings writes) are recorded in an effect trace `List Eff` in program
    order.  Pure logging calls are not modelled.
  * Python floats are modelled exactly: the 2-decimal GiB size as integer
    hundredths of a GiB (round half up; no verified property depends on the
    rounding mode), the temperature setting as `Rat`.
  * pydantic v2 semantics: `BaseModel.__eq__` compares the model class and all
    field values, and reading an attribute that is not a declared field raises
    `AttributeError`.
-/

namespace Ragnar

/-- One raw entry of the model listing returned by the backend
(`client.list()["models"]`); the `details` sub-dict is flattened into the
two fields the code reads from it. -/
structure RawModel where
  name : String
  parameter_size : String
  quantization_level : String
  size : Nat
  modified_at : String
  digest : String
deriving DecidableEq

/-- Field-for-field image of `ModelInfo` (ollama_client.py lines 11-22).
The pydantic float `size` (GiB, 2 decimals) is held as integer hundredths of a
GiB.  The source also defines `__hash__` as `hash(self.digest)`, but no code
path under verification consults the hash: list membership (`in` / `not in`)
uses pydantic `__eq__`, which compares every field — that is exactly the
derived structural equality of this structure. -/
structure ModelInfo where
  name : String
  parameter_size : String
  quantization_level : String
  size : Nat
  modified_at : String
  digest : String
deriving DecidableEq

/-- The Python expression `s.split("T")[0]`: everything before the first `T`,
or the whole string when it has none. -/
def firstSplitT (s : String) : String :=
  String.mk (s.toList.takeWhile (fun c => c ≠ 'T'))

/-- Embeds `OllamaClient._create_model_info` (ollama_client.py lines 74-87):
bytes are converted to hundredths of a GiB (`f"{size/2**30:.2f}"`,
round half up in this integer model) and the timestamp is truncated at the
first `T` (`split("T")[0]`). -/
def create_model_info (m : RawModel) : ModelInfo :=
  { name := m.name
    parameter_size := m.parameter_size
    quantization_level := m.quantization_level
    size := (m.size * 100 + 536870912) / 1073741824
    modified_at := firstSplitT m.modified_at
    digest := m.digest }

/-- The accumulation loop of `OllamaClient.__init__` (lines 46-50): each raw
entry is converted and appended unless an equal `ModelInfo` is already in the
list (`if model_info not in self.available_models`). -/
def dedupAppend (acc : List ModelInfo) : List RawModel → List ModelInfo
  | [] => acc
  | r :: rs =>
      let mi := create_model_info r
      if mi ∈ acc then dedupAppend acc rs else dedupAppend (acc ++ [mi]) rs

/-- The `available_models` list built by `OllamaClient.__init__` from the
backend listing. -/
def buildAvailable (raws : List RawModel) : List ModelInfo :=
  dedupAppend [] raws

/-- Generation options (`OllamaOptions`, settings/models.py lines 11-41).
Only `num_ctx` is ever named by the orchestration code; the remaining
generation knobs are carried nowhere and are elided. -/
structure OllamaOptions where
  num_ctx : Nat := 1024
deriving DecidableEq

/-- The `ollama` settings block (`OllamaModel`, settings/models.py lines
48-64).  Note that `num_ctx` is NOT a field here: it lives inside `options`.
`OllamaClient.chat` nevertheless dereferences `self.settings.num_ctx`. -/
structure OllamaModel where
  api_url : String := "http://localhost:11434"
  model : String := "llama3.2"
  temperature : Rat := 0.8
  max_tokens : Nat := 32000
  stream : Bool := false
  options : OllamaOptions := {}
deriving DecidableEq

/-- Discord settings block (`DiscordModel`, settings/models.py lines 67-70). -/
structure DiscordModel where
  token : String := ""
  bot_invite_url : String := ""
deriving DecidableEq

/-- Application settings (`AppSettings`, settings/models.py lines 79-86);
`version`, `debug`, `log` and `external_tokens` are read by no embedded code
path and are elided. -/
structure AppSettings where
  discord : DiscordModel := {}
  ollama : OllamaModel := {}
deriving DecidableEq

/-- Externally observable operations, recorded in program order. -/
inductive Eff where
  /-- `client.pull(name)` — `OllamaClient.pull_model`. -/
  | pull (name : String)
  /-- `client.generate(model=name)` — `OllamaClient.load_model`. -/
  | load (name : String)
  /-- `client.generate(model=name, keep_alive=0)` — `OllamaClient.unload_model`. -/
  | unload (name : String)
  /-- the orchestrator invokes `service.stop()` on the service held under
  `name` in its services mapping. -/
  | serviceStop (name : String)
  /-- a service closes its platform client during its own `stop()`. -/
  | clientClose (name : String)
  /-- the orchestrator starts the thread of the service held under `name`. -/
  | serviceThreadStart (name : String)
  /-- `self.scheduler.start()`. -/
  | schedStart
  /-- `self.scheduler.shutdown(wait=False)`. -/
  | schedShutdown
  /-- `settings_manager.save()` writing default settings. -/
  | saveSettings
deriving DecidableEq

/-- State of the model provisioner (`OllamaClient`).  The external helper
objects (`llm_axe`, `client`, `online_agent`, `pdf_reader`) are opaque
collaborators and carry no modelled state. -/
structure OllamaClient where
  initialized : Bool
  settings : OllamaModel
  available_models : List ModelInfo
  running_models : List ModelInfo
deriving DecidableEq

/-- The sentinel returned by `list_running_models` when the backend has no
resident model (ollama_client.py line 210). -/
def listRunningSentinel : String := "No models are currently loaded in memory."

/-- Embeds `OllamaClient.list_running_models` (lines 204-234): the sentinel
when `client.ps()` reports no resident model, otherwise the formatted
multi-line description of each resident model (the fields not shown here are
part of the same opaque format string and never inspected). -/
def list_running_models (psModels : List RawModel) : String :=
  if psModels.isEmpty then listRunningSentinel
  else
    String.intercalate "\n\n"
      (psModels.map (fun m => "Name: " ++ m.name ++ "\nDigest: " ++ m.digest ++ "\n"))

/-- Outcome of the guarded construction block of `OllamaClient.__init__`
(lines 34-42).  A failure of the very first statement
(`OllamaChat(...)`) leaves `self.llm_axe` unassigned; a failure of one of the
later statements (`OnlineAgent` / `PdfReader`) happens after `self.llm_axe`
and `self.client` are assigned, so the rest of `__init__` can still run with
`initialized` left `False`.  (A failure of the `ollama.Client` construction
alone is not modelled separately: no claim depends on it, and the client
object actually used afterwards is `self.llm_axe._ollama`.) -/
inductive OllamaCtorOutcome where
  | ok
  | failChatCtor
  | failLate
deriving DecidableEq

/-- Embeds `OllamaClient.__init__` (ollama_client.py lines 28-72) after the
guarded construction block, together with that block's outcome.

* `listResult` is what `self.llm_axe._ollama.list()` (line 44) does: this call
  sits OUTSIDE the `try`, so an exception here — or the `AttributeError` from
  dereferencing the never-assigned `llm_axe` when the construction of
  `OllamaChat` failed — escapes the constructor.
* When the backend reports resident models, the source builds the running
  entry from the stale loop variable `model` of the available-models loop,
  i.e. from the LAST entry of the listing (a `NameError` escapes if the
  listing was empty).
* Otherwise the bootstrap policy runs: load the first available model, or
  pull and load the hardcoded `llama3.2` when nothing is available.  Neither
  path writes to `running_models`. -/
def ollamaClientInit (ctor : OllamaCtorOutcome)
    (listResult : Except String (List RawModel)) (psModels : List RawModel)
    (settings : OllamaModel) : Except String (OllamaClient × List Eff) :=
  let isInit : Bool := match ctor with | .ok => true | _ => false
  match ctor with
  | .failChatCtor => .error "AttributeError: OllamaClient object has no attribute llm_axe"
  | _ =>
    match listResult with
    | .error e => .error e
    | .ok listing =>
      let available := buildAvailable listing
      let rm := list_running_models psModels
      if rm ≠ "" ∧ rm ≠ listRunningSentinel then
        match listing.getLast? with
        | none => .error "NameError: name model is not defined"
        | some lastRaw =>
            .ok ({ initialized := isInit, settings := settings,
                   available_models := available,
                   running_models := [create_model_info lastRaw] }, [])
      else
        match available with
        | a0 :: rest =>
            .ok ({ initialized := isInit, settings := settings,
                   available_models := a0 :: rest, running_models := [] },
                 [Eff.load a0.name])
        | [] =>
            .ok ({ initialized := isInit, settings := settings,
                   available_models := [], running_models := [] },
                 [Eff.pull "llama3.2", Eff.load "llama3.2"])

/-- One chat message (`{"role": ..., "content": ...}`). -/
structure ChatMessage where
  role : String
  content : String
deriving DecidableEq

/-- The request `OllamaClient.chat` hands to `client.chat(...)`.  Tool
definitions are opaque payloads.  `options_num_ctx` is `some _` exactly when
the options dict carries a `num_ctx` entry (the tools branch). -/
structure ChatRequest where
  model : String
  messages : List ChatMessage
  tools : List String
  stream : Bool
  options_temperature : Rat
  options_num_ctx : Option Nat
deriving DecidableEq

/-- Embeds `OllamaClient.chat` (ollama_client.py lines 100-135), returning the
request sent to the backend, or the exception raised before any request goes
out.  The tools branch (lines 113-124) hardcodes `stream=False` but builds its
options dict from `self.settings.temperature` and `self.settings.num_ctx`;
`OllamaModel` declares no field `num_ctx` (it lives under
`settings.options`), so that attribute read raises `AttributeError`, which the
`except ollama.ResponseError` clause does not catch.  The no-tools branch
sends `stream if stream is not None else self.settings.stream`. -/
def OllamaClient.chat (c : OllamaClient) (messages : List ChatMessage)
    (stream : Option Bool) (tools : Option (List String)) :
    Except String ChatRequest :=
  if c.initialized = false then .error "Ollama client not initialized"
  else
    match tools with
    | some (_ :: _) =>
        .error "AttributeError: OllamaModel object has no attribute num_ctx"
    | _ =>
        .ok { model := c.settings.model
              messages := messages
              tools := []
              stream := stream.getD c.settings.stream
              options_temperature := c.settings.temperature
              options_num_ctx := none }

/-- State of `DiscordService` (services/discord.py).  The class subclasses
nothing (in particular not `BaseService` or `Thread`).  `running` is
`Option Bool` because no statement of `__init__` (lines 12-25) or `setup`
assigns the attribute: it is `none` ("never assigned") until `stop()` itself
sets it.  `clientSet` records `hasattr(self, "client")` (assigned by
`setup()`).  `name` is the key under which the orchestrator's services
mapping would hold the instance; it only labels trace events. -/
structure Service where
  name : String
  token : String
  initialized : Bool
  running : Option Bool
  clientSet : Bool
deriving DecidableEq

/-- Embeds `DiscordService.validate` (discord.py lines 40-45): the configured
token must be non-empty. -/
def Service.validate (s : Service) : Bool :=
  s.token ≠ ""

/-- Embeds `DiscordService.__init__` (discord.py lines 12-25): when
`validate()` passes, `setup()` builds the platform client and the instance is
marked initialized; otherwise the constructor returns with
`initialized = False` and no client.  Neither path assigns `running`. -/
def discordInit (token : String) : Service :=
  if token ≠ "" then
    { name := "discord", token := token, initialized := true,
      running := none, clientSet := true }
  else
    { name := "discord", token := token, initialized := false,
      running := none, clientSet := false }

/-- Embeds `DiscordService.stop` (discord.py lines 190-209).  The guard reads
`self.running`, an attribute nothing ever assigns before `stop` itself, so on
an initialized instance the first call raises `AttributeError`.  When the
guard passes, `running` is set to `False` and `_cleanup` closes the platform
client when one exists (the asyncio event-loop juggling around that close is
opaque machinery and is collapsed into the single close effect). -/
def Service.stopImpl (s : Service) : Except String (Service × List Eff) :=
  if s.initialized = false then .ok (s, [])
  else
    match s.running with
    | none => .error "AttributeError: DiscordService object has no attribute running"
    | some false => .ok (s, [])
    | some true =>
        .ok ({ s with running := some false },
             if s.clientSet then [Eff.clientClose s.name] else [])

/-- State of the orchestrator (`Program`, program.py).  `services` is
`Option` because `__init__` returns before the `self.services = {}`
assignment when the provisioner came back uninitialized (lines 25-27), so the
attribute may not exist.  The separate `discord` field mirrors
`self.discord`; `Program.stop` and `Program.start` never read it.
`schedulerSet` records `hasattr(self, "scheduler")`; `schedulerRunning` the
scheduler's own running flag. -/
structure Program where
  initialized : Bool
  running : Bool
  ollama : OllamaClient
  services : Option (List Service)
  discord : Option Service
  schedulerSet : Bool
  schedulerRunning : Bool
deriving DecidableEq

/-- Embeds `Program.__init__` (program.py lines 18-35).  The `OllamaClient()`
construction is not guarded: its exception escapes and no `Program` object
exists.  When the client reports `initialized = False` the constructor
returns early, leaving the `services` attribute unassigned.  Otherwise
`services` is set to the empty mapping and the Discord service is constructed
inline; the subsequent `self.discord.client.run(...)` call (and any exception
from it or from the missing `client` attribute) is swallowed by the bare
`except Exception: return` and touches none of the fields read later. -/
def programInit (ctor : OllamaCtorOutcome)
    (listResult : Except String (List RawModel)) (psModels : List RawModel)
    (st : AppSettings) : Except String (Program × List Eff) :=
  match ollamaClientInit ctor listResult psModels st.ollama with
  | .error e => .error e
  | .ok (oc, effs) =>
    if oc.initialized = false then
      .ok ({ initialized := false, running := false, ollama := oc,
             services := none, discord := none,
             schedulerSet := false, schedulerRunning := false }, effs)
    else
      .ok ({ initialized := false, running := false, ollama := oc,
             services := some [], discord := some (discordInit st.discord.token),
             schedulerSet := false, schedulerRunning := false }, effs)

/-- Embeds `Program.validate_services` (program.py lines 37-41):
`any(service.validate() for service in self.services.values())`, raising when
the `services` attribute was never assigned. -/
def Program.validate_services (p : Program) : Except String Bool :=
  match p.services with
  | none => .error "AttributeError: Program object has no attribute services"
  | some l => .ok (l.any Service.validate)

/-- The per-service part of `Program.stop` (program.py lines 115-117): each
initialized service has its `stop()` invoked (recorded as
`Eff.serviceStop`); uninitialized services are skipped. -/
def stopServices : List Service → Except String (List Service × List Eff)
  | [] => .ok ([], [])
  | s :: rest =>
    if s.initialized then
      match s.stopImpl with
      | .error e => .error e
      | .ok (s', e) =>
        match stopServices rest with
        | .error e2 => .error e2
        | .ok (rest', es) => .ok (s' :: rest', (Eff.serviceStop s.name :: e) ++ es)
    else
      match stopServices rest with
      | .error e2 => .error e2
      | .ok (rest', es) => .ok (s :: rest', es)

/-- Embeds `Program.stop` (program.py lines 103-122): clear the running flag;
return at once when never initialized; otherwise unload every model listed in
`ollama.running_models` (the list is not cleared), invoke `stop()` on every
initialized service, and shut the scheduler down when it exists and is still
running (after which its own running flag is down). -/
def Program.stop (p : Program) : Except String (Program × List Eff) :=
  if p.initialized = false then .ok ({ p with running := false }, [])
  else
    let unloads := p.ollama.running_models.map (fun m => Eff.unload m.name)
    match p.services with
    | none => .error "AttributeError: Program object has no attribute services"
    | some l =>
      match stopServices l with
      | .error e => .error e
      | .ok (l', svcEffs) =>
        if p.schedulerSet ∧ p.schedulerRunning then
          .ok ({ p with
                 running := false
                 services := some l'
                 schedulerRunning := false },
               unloads ++ svcEffs ++ [Eff.schedShutdown])
        else
          .ok ({ p with running := false, services := some l' },
               unloads ++ svcEffs)

/-- Result of `Program.start` under a fuel bound on the configuration-wait
loop: `waiting` when the fuel ran out with the loop still spinning, `started`
when the loop exited and the services and scheduler were started, `failed`
when an exception escaped. -/
inductive StartResult where
  | waiting (effs : List Eff)
  | started (p : Program) (effs : List Eff)
  | failed (msg : String) (effs : List Eff)
deriving DecidableEq

/-- The `while not self.validate_services(): time.sleep(1)` loop of
`Program.start` together with what follows it (program.py lines 53-72): once
the aggregate gate passes, every service thread is started, the scheduler is
built and started, and `initialized` is set.  (The banner printed by the
pre-loop `if not self.validate_services()` check calls the same pure
predicate and only logs.) -/
def startLoop (p : Program) (pre : List Eff) : Nat → StartResult
  | 0 => .waiting pre
  | fuel + 1 =>
    match p.validate_services with
    | .error e => .failed e pre
    | .ok false => startLoop p pre fuel
    | .ok true =>
      let l := p.services.getD []
      .started { p with
                 initialized := true
                 schedulerSet := true
                 schedulerRunning := true }
        (pre ++ l.map (fun s => Eff.serviceThreadStart s.name) ++ [Eff.schedStart])

/-- Embeds `Program.start` (program.py lines 43-72).  Before the wait loop the
data directory is ensured and default settings are written when the settings
file does not exist (`settingsFileExists`); `get_version` and the log banner
are pure logging.  The wait loop is bounded by `fuel` polls. -/
def Program.start (p : Program) (settingsFileExists : Bool) (fuel : Nat) :
    StartResult :=
  startLoop p (if settingsFileExists then [] else [Eff.saveSettings]) fuel

/-- Embeds `Program.run` (program.py lines 94-101): sets the running flag and
idles; the sleep loop changes no further state. -/
def programRun (p : Program) : Program :=
  { p with running := true }

/-- Orchestrator states reachable through the embedded operations: a state
produced by a completed `Program.__init__`, or the successor of a reachable
state under `start`, `run`, or `stop` (the signal handler and `main()` only
ever call these). -/
inductive Reach : Program → Prop where
  | init (ctor : OllamaCtorOutcome) (lr : Except String (List RawModel))
      (ps : List RawModel) (st : AppSettings) (p : Program) (e : List Eff)
      (h : programInit ctor lr ps st = .ok (p, e)) : Reach p
  | startStep (p : Program) (sfe : Bool) (fuel : Nat) (p' : Program)
      (e : List Eff) (hp : Reach p)
      (h : Program.start p sfe fuel = .started p' e) : Reach p'
  | runStep (p : Program) (hp : Reach p) : Reach (programRun p)
  | stopStep (p : Program) (p' : Program) (e : List Eff) (hp : Reach p)
      (h : Program.stop p = .ok (p', e)) : Reach p'

/-- Effects that are backend unload calls. -/
def isUnload : Eff → Bool
  | .unload _ => true
  | _ => false

/-- Effects that belong to stopping a service: the orchestrator invoking its
`stop()`, or the service closing its own platform client. -/
def isServiceEff : Eff → Bool
  | .serviceStop _ => true
  | .clientClose _ => true
  | _ => false

/-! ### Concrete sample data used by counterexamples and witnesses -/

/-- A raw backend listing entry. -/
def rawA : RawModel :=
  { name := "llama3.2:latest", parameter_size := "3B", quantization_level := "Q4_0",
    size := 2000000000, modified_at := "2024-10-01T12:00:00Z", digest := "sha256:aaa" }

/-- The same model content under a different name: identical digest (and all
other fields) but a distinct `name`. -/
def rawB : RawModel := { rawA with name := "custom:latest" }

/-- The single available model of the spec's end-to-end bootstrap scenario. -/
def m1raw : RawModel :=
  { name := "m1", parameter_size := "1B", quantization_level := "Q4_0",
    size := 1073741824, modified_at := "2024-01-01T00:00:00Z", digest := "sha256:m1" }

/-- The provisioner state `OllamaClient.__init__` produces from a backend
with exactly `m1raw` available and nothing resident. -/
def c2client : OllamaClient :=
  { initialized := true, settings := {},
    available_models := [create_model_info m1raw], running_models := [] }

/-- An initialized provisioner with default settings and no known models. -/
def chatClient : OllamaClient :=
  { initialized := true, settings := {}, available_models := [],
    running_models := [] }

/-! ### Further sample states and filter lemmas for the shutdown claims -/

/-- A model marked as resident in the provisioner. -/
def mRun : ModelInfo :=
  { name := "m-running", parameter_size := "1B", quantization_level := "Q4_0",
    size := 100, modified_at := "2024-01-01", digest := "sha256:r" }

/-- A second resident model. -/
def mB : ModelInfo := { mRun with name := "mB", digest := "sha256:b" }

/-- An initialized orchestrator with one resident model, an empty services
mapping, and a running scheduler. -/
def pDouble : Program :=
  { initialized := true, running := true,
    ollama := { initialized := true, settings := {},
                available_models := [mRun], running_models := [mRun] },
    services := some [], discord := none,
    schedulerSet := true, schedulerRunning := true }

/-- The state after the first `stop()` call on `pDouble`. -/
def pDouble1 : Program := { pDouble with running := false, schedulerRunning := false }

/-- An initialized, running Discord service as the orchestrator would hold it
in its services mapping. -/
def svcW : Service :=
  { name := "discord", token := "tok", initialized := true,
    running := some true, clientSet := true }

/-- An initialized orchestrator with two resident models and one running
service: the spec's shutdown-ordering scenario. -/
def pW6 : Program :=
  { initialized := true, running := true,
    ollama := { initialized := true, settings := {},
                available_models := [mRun, mB], running_models := [mRun, mB] },
    services := some [svcW], discord := none,
    schedulerSet := true, schedulerRunning := true }

/-- The state `Program.stop` leaves behind from `pW6`. -/
def pW6out : Program :=
  { pW6 with
    running := false
    services := some [{ svcW with running := some false }]
    schedulerRunning := false }

/-- A freshly constructed orchestrator holding one never-valid service (empty
token) in its services mapping. -/
def pW8 : Program :=
  { initialized := false, running := false,
    ollama := chatClient, services := some [discordInit ""],
    discord := some (discordInit ""), schedulerSet := false,
    schedulerRunning := false }

/-- The orchestrator state produced by `programInit` against a backend with
no models at all and default settings. -/
def pInitW : Program :=
  { initialized := false, running := false,
    ollama := { initialized := true, settings := {}, available_models := [],
                running_models := [] },
    services := some [], discord := some (discordInit ""),
    schedulerSet := false, schedulerRunning := false }

/-! ### Helper lemmas about the deduplicating accumulation loop -/

theorem mem_dedupAppend (rs : List RawModel) :
    ∀ (acc : List ModelInfo) (x : ModelInfo),
      x ∈ dedupAppend acc rs ↔ x ∈ acc ∨ x ∈ rs.map create_model_info := by
  induction rs with
  | nil => intro acc x; simp [dedupAppend]
  | cons r rs ih =>
    intro acc x
    simp only [dedupAppend, List.map_cons, List.mem_cons]
    by_cases h : create_model_info r ∈ acc
    · rw [if_pos h, ih]
      constructor
      · rintro (hx | hx)
        · exact Or.inl hx
        · exact Or.inr (Or.inr hx)
      · rintro (hx | hx | hx)
        · exact Or.inl hx
        · exact Or.inl (hx ▸ h)
        · exact Or.inr hx
    · rw [if_neg h, ih]
      simp only [List.mem_append, List.mem_singleton]
      tauto

theorem nodup_dedupAppend (rs : List RawModel) :
    ∀ acc : List ModelInfo, acc.Nodup → (dedupAppend acc rs).Nodup := by
  induction rs with
  | nil => intro acc h; simpa [dedupAppend] using h
  | cons r rs ih =>
    intro acc h
    simp only [dedupAppend]
    by_cases hm : create_model_info r ∈ acc
    · rw [if_pos hm]; exact ih acc h
    · rw [if_neg hm]
      refine ih _ ?_
      simp [List.nodup_append, h, hm]

theorem dedupAppend_extends (rs : List RawModel) :
    ∀ acc : List ModelInfo, ∃ t, dedupAppend acc rs = acc ++ t := by
  induction rs with
  | nil => intro acc; exact ⟨[], by simp [dedupAppend]⟩
  | cons r rs ih =>
    intro acc
    simp only [dedupAppend]
    by_cases hm : create_model_info r ∈ acc
    · rw [if_pos hm]; exact ih acc
    · rw [if_neg hm]
      obtain ⟨t, ht⟩ := ih (acc ++ [create_model_info r])
      exact ⟨create_model_info r :: t, by simpa using ht⟩

theorem buildAvailable_cons (r : RawModel) (rs : List RawModel) :
    ∃ t, buildAvailable (r :: rs) = create_model_info r :: t := by
  unfold buildAvailable dedupAppend
  rw [if_neg (List.not_mem_nil _)]
  obtain ⟨t, ht⟩ := dedupAppend_extends rs [create_model_info r]
  exact ⟨t, by simpa using ht⟩

/-! ### Helper lemmas about service and orchestrator shutdown -/


theorem stopImpl_effects (s s' : Service) (e : List Eff)
    (h : s.stopImpl = .ok (s', e)) : ∀ x ∈ e, isServiceEff x = true := by
  unfold Service.stopImpl at h
  by_cases hi : s.initialized = false
  · rw [if_pos hi] at h
    injection h with h
    injection h with h1 h2
    subst h2
    intro x hx; cases hx
  · rw [if_neg hi] at h
    cases hr : s.running with
    | none => rw [hr] at h; cases h
    | some b =>
      cases b with
      | false =>
        rw [hr] at h
        injection h with h
        injection h with h1 h2
        subst h2
        intro x hx; cases hx
      | true =>
        rw [hr] at h
        injection h with h
        injection h with h1 h2
        subst h2
        intro x hx
        by_cases hc : s.clientSet = true
        · simp only [hc, if_true, List.mem_singleton] at hx
          subst hx; rfl
        · rw [eq_false_of_ne_true hc] at hx
          simp at hx

theorem stopImpl_idem (s s' : Service) (e : List Eff)
    (h : s.stopImpl = .ok (s', e)) :
    s'.initialized = s.initialized ∧ s'.name = s.name ∧
      s'.stopImpl = .ok (s', []) := by
  unfold Service.stopImpl at h ⊢
  by_cases hi : s.initialized = false
  · rw [if_pos hi] at h
    cases h
    rw [if_pos hi]
    exact ⟨rfl, rfl, rfl⟩
  · rw [if_neg hi] at h
    cases hr : s.running with
    | none => rw [hr] at h; cases h
    | some b =>
      cases b with
      | false =>
        rw [hr] at h
        cases h
        rw [if_neg hi, hr]
        exact ⟨rfl, rfl, rfl⟩
      | true =>
        rw [hr] at h
        cases h
        refine ⟨rfl, rfl, ?_⟩
        rw [if_neg hi]

theorem stopServices_effects (l : List Service) :
    ∀ l' es, stopServices l = .ok (l', es) → ∀ x ∈ es, isServiceEff x = true := by
  induction l with
  | nil =>
    intro l' es h x hx
    unfold stopServices at h
    injection h with h
    injection h with h1 h2
    subst h2
    cases hx
  | cons s rest ih =>
    intro l' es h x hx
    unfold stopServices at h
    by_cases hi : s.initialized = true
    · rw [if_pos hi] at h
      cases hs : s.stopImpl with
      | error e => rw [hs] at h; cases h
      | ok pr =>
        obtain ⟨s1, e1⟩ := pr
        rw [hs] at h
        cases hrest : stopServices rest with
        | error e2 => rw [hrest] at h; cases h
        | ok pr2 =>
          obtain ⟨rest1, es2⟩ := pr2
          rw [hrest] at h
          injection h with h
          injection h with h1 h2
          subst h2
          rcases List.mem_append.mp hx with hx1 | hx2
          · rcases List.mem_cons.mp hx1 with hx1 | hx1
            · subst hx1; rfl
            · exact stopImpl_effects s s1 e1 hs x hx1
          · exact ih rest1 es2 hrest x hx2
    · rw [if_neg hi] at h
      cases hrest : stopServices rest with
      | error e2 => rw [hrest] at h; cases h
      | ok pr2 =>
        obtain ⟨rest1, es2⟩ := pr2
        rw [hrest] at h
        injection h with h
        injection h with h1 h2
        subst h2
        exact ih rest1 es2 hrest x hx

theorem stopServices_idem (l : List Service) :
    ∀ l' es, stopServices l = .ok (l', es) →
      ∃ es', stopServices l' = .ok (l', es') ∧
        ∀ x ∈ es', ∃ n, x = Eff.serviceStop n := by
  induction l with
  | nil =>
    intro l' es h
    unfold stopServices at h
    injection h with h
    injection h with h1 h2
    subst h1
    exact ⟨[], rfl, by intro x hx; cases hx⟩
  | cons s rest ih =>
    intro l' es h
    unfold stopServices at h
    by_cases hi : s.initialized = true
    · rw [if_pos hi] at h
      cases hs : s.stopImpl with
      | error e => rw [hs] at h; cases h
      | ok pr =>
        obtain ⟨s1, e1⟩ := pr
        rw [hs] at h
        cases hrest : stopServices rest with
        | error e2 => rw [hrest] at h; cases h
        | ok pr2 =>
          obtain ⟨rest1, es2⟩ := pr2
          rw [hrest] at h
          injection h with h
          injection h with h1 h2
          subst h1
          obtain ⟨hinit, hname, hstop⟩ := stopImpl_idem s s1 e1 hs
          obtain ⟨es2', hrest', hall⟩ := ih rest1 es2 hrest
          refine ⟨Eff.serviceStop s1.name :: es2', ?_, ?_⟩
          · unfold stopServices
            rw [if_pos (hinit.trans hi), hstop, hrest']
            exact rfl
          · intro x hx
            rcases List.mem_cons.mp hx with hx | hx
            · exact ⟨s1.name, hx⟩
            · exact hall x hx
    · rw [if_neg hi] at h
      cases hrest : stopServices rest with
      | error e2 => rw [hrest] at h; cases h
      | ok pr2 =>
        obtain ⟨rest1, es2⟩ := pr2
        rw [hrest] at h
        injection h with h
        injection h with h1 h2
        subst h1
        obtain ⟨es2', hrest', hall⟩ := ih rest1 es2 hrest
        refine ⟨es2', ?_, hall⟩
        unfold stopServices
        rw [if_neg hi, hrest']

theorem stop_eval_uninit (p : Program) (hi : p.initialized = false) :
    Program.stop p = .ok ({ p with running := false }, []) := by
  unfold Program.stop
  rw [if_pos hi]

theorem stop_eval_init (p : Program) (l l' : List Service) (svcEffs : List Eff)
    (hi : p.initialized = true) (hs : p.services = some l)
    (hss : stopServices l = .ok (l', svcEffs)) :
    Program.stop p =
      if p.schedulerSet ∧ p.schedulerRunning then
        .ok ({ p with
               running := false
               services := some l'
               schedulerRunning := false },
             p.ollama.running_models.map (fun m => Eff.unload m.name) ++ svcEffs
               ++ [Eff.schedShutdown])
      else
        .ok ({ p with running := false, services := some l' },
             p.ollama.running_models.map (fun m => Eff.unload m.name) ++ svcEffs) := by
  unfold Program.stop
  simp only [hi, hs, hss]
  simp

theorem stop_ok_cases (p p' : Program) (e : List Eff)
    (h : Program.stop p = .ok (p', e)) :
    (p.initialized = false ∧ p' = { p with running := false } ∧ e = []) ∨
    (p.initialized = true ∧ ∃ l l' svcEffs, p.services = some l ∧
      stopServices l = .ok (l', svcEffs) ∧
      e = p.ollama.running_models.map (fun m => Eff.unload m.name) ++ svcEffs
            ++ (if p.schedulerSet ∧ p.schedulerRunning then [Eff.schedShutdown] else []) ∧
      ((p.schedulerSet ∧ p.schedulerRunning) →
          p' = { p with
                 running := false
                 services := some l'
                 schedulerRunning := false }) ∧
      (¬(p.schedulerSet ∧ p.schedulerRunning) →
          p' = { p with running := false, services := some l' })) := by
  by_cases hi : p.initialized = false
  · rw [stop_eval_uninit p hi] at h
    injection h with h
    injection h with h1 h2
    exact Or.inl ⟨hi, h1.symm, h2.symm⟩
  · have hit : p.initialized = true := by
      cases hb : p.initialized
      · exact absurd hb hi
      · rfl
    refine Or.inr ⟨hit, ?_⟩
    unfold Program.stop at h
    rw [hit, if_neg (by decide : ¬(true = false))] at h
    rw [hit]
    cases hs : p.services with
    | none =>
      simp only [hs] at h
      cases h
    | some l =>
      simp only [hs] at h
      cases hss : stopServices l with
      | error m =>
        simp only [hss] at h
        cases h
      | ok pr =>
        obtain ⟨l', svcEffs⟩ := pr
        simp only [hss] at h
        refine ⟨l, l', svcEffs, rfl, hss, ?_⟩
        by_cases hsch : p.schedulerSet ∧ p.schedulerRunning
        · rw [if_pos hsch] at h
          simp only [if_pos hsch]
          injection h with h
          injection h with h1 h2
          exact ⟨h2.symm, fun _ => h1.symm, fun hn => absurd hsch hn⟩
        · rw [if_neg hsch] at h
          simp only [if_neg hsch]
          injection h with h
          injection h with h1 h2
          refine ⟨by rw [← h2]; simp, fun hy => absurd hy hsch, fun _ => h1.symm⟩

theorem validate_services_some (p : Program) (l : List Service)
    (hs : p.services = some l) :
    p.validate_services = .ok (l.any Service.validate) := by
  unfold Program.validate_services
  rw [hs]

theorem startLoop_waiting (p : Program) (pre : List Eff)
    (hv : p.validate_services = .ok false) :
    ∀ fuel, startLoop p pre fuel = .waiting pre := by
  intro fuel
  induction fuel with
  | zero => rfl
  | succ n ih =>
    unfold startLoop
    rw [hv]
    exact ih

theorem startLoop_started (p : Program) (pre : List Eff) :
    ∀ fuel q e, startLoop p pre fuel = .started q e →
      p.validate_services = .ok true ∧ q.services = p.services := by
  intro fuel
  induction fuel with
  | zero => intro q e h; cases h
  | succ n ih =>
    intro q e h
    unfold startLoop at h
    cases hv : p.validate_services with
    | error m => rw [hv] at h; cases h
    | ok b =>
      rw [hv] at h
      cases b with
      | false =>
        exfalso
        obtain ⟨hvt, _⟩ := ih q e h
        rw [hv] at hvt
        injection hvt with hb
        cases hb
      | true =>
        injection h with h1 h2
        exact ⟨rfl, by rw [← h1]⟩

theorem reach_services_empty (p : Program) (hp : Reach p) :
    p.services = none ∨ p.services = some [] := by
  induction hp with
  | init ctor lr ps st q e h =>
    unfold programInit at h
    cases ho : ollamaClientInit ctor lr ps st.ollama with
    | error m =>
      simp only [ho] at h
      cases h
    | ok pr =>
      obtain ⟨oc, effs⟩ := pr
      simp only [ho] at h
      by_cases hi : oc.initialized = false
      · rw [if_pos hi] at h
        injection h with h
        injection h with h1 h2
        rw [← h1]
        exact Or.inl rfl
      · rw [if_neg hi] at h
        injection h with h
        injection h with h1 h2
        rw [← h1]
        exact Or.inr rfl
  | startStep q sfe fuel q' e hq h ih =>
    obtain ⟨hv, hsv⟩ := startLoop_started q _ fuel q' e h
    rw [hsv]
    exact ih
  | runStep q hq ih => exact ih
  | stopStep q q' e hq h ih =>
    rcases stop_ok_cases q q' e h with ⟨_, hq', _⟩ | ⟨_, l, l', svcEffs, hs, hss, _, hy, hn⟩
    · rw [hq']
      exact ih
    · rcases ih with ihn | ihe
      · rw [hs] at ihn
        cases ihn
      · rw [hs] at ihe
        injection ihe with ihe
        subst ihe
        have hl' : l' = [] := by
          unfold stopServices at hss
          injection hss with hss
          injection hss with h1 h2
          exact h1.symm
        by_cases hsch : q.schedulerSet ∧ q.schedulerRunning
        · rw [hy hsch, hl']
          exact Or.inr rfl
        · rw [hn hsch, hl']
          exact Or.inr rfl

/-- Evaluation of `OllamaClient.__init__` when the backend reports no resident
model: the bootstrap policy picks the first available model, or pulls and
loads the fallback when the listing is empty. -/
theorem ollamaClientInit_ps_empty (st : OllamaModel) (listing : List RawModel) :
    ollamaClientInit .ok (.ok listing) [] st =
      match buildAvailable listing with
      | a0 :: rest =>
          .ok ({ initialized := true, settings := st,
                 available_models := a0 :: rest, running_models := [] },
               [Eff.load a0.name])
      | [] =>
          .ok ({ initialized := true, settings := st, available_models := [],
                 running_models := [] },
               [Eff.pull "llama3.2", Eff.load "llama3.2"]) := rfl


/-! ### Claim C1 -/

/-- Claim C1, counterexample.  The claim says deduplication of `available` is
keyed by digest alone, so two list entries with identical digest and
different names must collapse to one entry.  In the code,
`model_info not in self.available_models` uses pydantic `__eq__`, which
compares every field (the digest-based `__hash__` is never consulted by list
membership), so `rawA` and `rawB` — identical digests, different names —
produce TWO entries in `available_models`, refuting the claim. -/
theorem dedup_same_digest_distinct_entries :
    rawA.digest = rawB.digest ∧ rawA.name ≠ rawB.name ∧
      (buildAvailable [rawA, rawB]).length = 2 := ⟨rfl, by decide, rfl⟩

/-- Claim C1 (amended).  Deduplication of `available` is keyed by
whole-record pydantic equality, not by digest: an incoming entry is dropped
exactly when a `ModelInfo` with all six fields equal is already present.
Consequently `available_models` holds no duplicate records, and a converted
entry appears in it if and only if it is the conversion of some listing
entry — entries agreeing only on digest stay distinct. -/
theorem available_dedup_by_full_field_equality (raws : List RawModel) :
    (buildAvailable raws).Nodup ∧
    ∀ mi : ModelInfo, mi ∈ buildAvailable raws ↔ mi ∈ raws.map create_model_info := by
  constructor
  · exact nodup_dedupAppend raws [] List.nodup_nil
  · intro mi
    unfold buildAvailable
    rw [mem_dedupAppend raws [] mi]
    simp

/-! ### Claim C2 -/

/-- Claim C2, counterexample.  Against a backend reporting one available
model `"m1"` and zero resident models, initialization does load the first
available model and records no pull — but the resulting `running_models`
set is EMPTY: `load_model` only issues the backend generate call and never
inserts into `running_models`, so the claim's requirement that the `running`
set contain the loaded model fails. -/
theorem bootstrap_load_leaves_running_empty :
    ollamaClientInit .ok (.ok [m1raw]) [] {} = .ok (c2client, [Eff.load "m1"]) ∧
      create_model_info m1raw ∉ c2client.running_models := ⟨rfl, by decide⟩

/-- Claim C2 (amended).  If at initialize time the backend reports zero
resident models but at least one available model, initialization completes
with the client initialized, `available_models` holding the deduplicated
listing, exactly one backend call performed — a load of the first available
model, no pull — while `running_models` stays empty (the load is not
recorded there). -/
theorem bootstrap_loads_first_available_without_pull (st : OllamaModel)
    (r : RawModel) (rs : List RawModel) :
    ∃ c, ollamaClientInit .ok (.ok (r :: rs)) [] st =
        .ok (c, [Eff.load (create_model_info r).name]) ∧
      c.initialized = true ∧ c.available_models = buildAvailable (r :: rs) ∧
      c.running_models = [] := by
  obtain ⟨t, ht⟩ := buildAvailable_cons r rs
  refine ⟨{ initialized := true, settings := st,
            available_models := create_model_info r :: t, running_models := [] },
          ?_, rfl, ?_, rfl⟩
  · rw [ollamaClientInit_ps_empty, ht]
  · rw [ht]

/-! ### Claim C3 -/

/-- Claim C3 (confirmed).  If at initialize time the backend reports zero
resident models and zero available models, initialization completes having
performed exactly one pull — of the hardcoded fallback `"llama3.2"` — and
then one load of that same model, in that order, so a usable model was
provisioned before the process continues. -/
theorem bootstrap_pulls_and_loads_fallback (st : OllamaModel) :
    ollamaClientInit .ok (.ok []) [] st =
      .ok ({ initialized := true, settings := st, available_models := [],
             running_models := [] },
           [Eff.pull "llama3.2", Eff.load "llama3.2"]) := rfl

/-! ### Claim C4 -/

/-- Claim C4.  The claim says every `chat()` call with a non-empty `tools`
argument reaches the backend with streaming disabled.  The tools branch does
hardcode `stream=False` (its comment says tools require streaming off), but
it also builds its options dict from `self.settings.num_ctx` — an attribute
`OllamaModel` does not define (`num_ctx` lives under `settings.options`) —
so the call raises `AttributeError` before any request is sent; the
`except ollama.ResponseError` handler does not catch it.  The second
conjunct shows the no-tools path does send a request (honouring the caller's
stream flag), isolating the defect to the tools branch. -/
theorem chat_with_tools_raises_before_request :
    chatClient.chat [{ role := "user", content := "hi" }] (some true) (some ["toolA"]) =
      .error "AttributeError: OllamaModel object has no attribute num_ctx" ∧
    chatClient.chat [{ role := "user", content := "hi" }] (some true) none =
      .ok { model := "llama3.2", messages := [{ role := "user", content := "hi" }],
            tools := [], stream := true, options_temperature := 0.8,
            options_num_ctx := none } := ⟨rfl, rfl⟩

/-! ### Claim C7 -/

/-- Claim C7.  The claim says a backend connection failure during provisioner
initialization leaves the provisioner constructed but uninitialized, with no
exception escaping, and the orchestrator then stops after logging.  In the
code the model-listing call (`self.llm_axe._ollama.list()`, line 44) sits
OUTSIDE the `try` that guards construction, so a backend-unreachable error
there — or the `AttributeError` from the never-assigned `llm_axe` when the
guarded construction itself failed — escapes `OllamaClient.__init__`;
`Program.__init__` does not guard the `OllamaClient()` call either, so the
exception propagates to module scope and no orchestrator object exists: the
graceful `initialized = False` path is unreachable for connection failures. -/
theorem backend_failure_escapes_construction :
    programInit .ok (.error "ConnectionError: backend unreachable") [] {} =
      .error "ConnectionError: backend unreachable" ∧
    programInit .failChatCtor (.error "ConnectionError: backend unreachable") [] {} =
      .error "AttributeError: OllamaClient object has no attribute llm_axe" := ⟨rfl, rfl⟩

/-! ### Claim C9 -/

/-- Claim C9.  The claim says `stop()` on a never-started service is a safe
no-op.  `DiscordService.stop` guards with
`if not self.initialized or not self.running: return`, but no statement of
the class ever assigns `self.running` before `stop` itself does, so on an
instance whose construction succeeded (non-empty token, hence
`initialized = True`) the guard itself raises `AttributeError` — `stop()` on
a never-started service raises instead of being a no-op.  The second
conjunct shows the intended no-op does occur when construction left the
service uninitialized (empty token). -/
theorem discord_stop_unstarted_raises :
    Service.stopImpl (discordInit "valid-token") =
      .error "AttributeError: DiscordService object has no attribute running" ∧
    Service.stopImpl (discordInit "") = .ok (discordInit "", []) := ⟨rfl, rfl⟩


theorem filter_isUnload_unloads (ms : List ModelInfo) :
    (ms.map (fun m => Eff.unload m.name)).filter isUnload
      = ms.map (fun m => Eff.unload m.name) := by
  induction ms with
  | nil => rfl
  | cons m ms ih => simp [isUnload, ih]

theorem filter_isUnload_of_serviceStops (es : List Eff)
    (h : ∀ x ∈ es, ∃ n, x = Eff.serviceStop n) : es.filter isUnload = [] := by
  induction es with
  | nil => rfl
  | cons x es ih =>
    obtain ⟨n, hn⟩ := h x (List.mem_cons_self x es)
    subst hn
    simp only [List.filter_cons]
    rw [if_neg (by simp [isUnload])]
    exact ih (fun y hy => h y (List.mem_cons_of_mem _ hy))

/-! ### Claim C5 -/

/-- Claim C5, counterexample.  The claim says a second `stop()` call, from
any state, leaves the effects performed — model unload invocations included —
identical to one call, re-entry after the Stopped point being a no-op.  From
an initialized orchestrator with one resident model, the first `stop()`
unloads the model and shuts the scheduler down; the second call, far from a
no-op, unloads the model AGAIN (the running list is never cleared and no
terminal state is recorded), so two calls perform three external operations
where one call performs two. -/
theorem stop_twice_not_noop :
    Program.stop pDouble = .ok (pDouble1, [Eff.unload "m-running", Eff.schedShutdown]) ∧
    Program.stop pDouble1 = .ok (pDouble1, [Eff.unload "m-running"]) ∧
    ([Eff.unload "m-running"] : List Eff) ≠ [] := ⟨rfl, rfl, by decide⟩

/-- Claim C5 (amended).  Calling `stop()` a second time does not raise when
the first call returned, and it leaves the orchestrator state exactly where
the first call left it; it re-stops no service client and does not re-shut
the scheduler — but it is not a no-op: it re-invokes the backend unload for
every model still listed in `running_models` (which `stop` never clears) and
re-calls `stop()` on each initialized service (each returns at once).  The
second call is effect-free exactly when the orchestrator was uninitialized
or has no recorded running models. -/
theorem stop_twice_state_fixed_unloads_repeat (p p₁ : Program) (e₁ : List Eff)
    (h : Program.stop p = .ok (p₁, e₁)) :
    ∃ e₂, Program.stop p₁ = .ok (p₁, e₂) ∧
      e₂.filter isUnload =
        (if p.initialized then
           p.ollama.running_models.map (fun m => Eff.unload m.name)
         else []) ∧
      ∀ x ∈ e₂, isUnload x = true ∨ ∃ n, x = Eff.serviceStop n := by
  rcases stop_ok_cases p p₁ e₁ h with ⟨hi, hp₁, he₁⟩ | ⟨hi, l, l', svcEffs, hs, hss, he, hy, hn⟩
  · have hi₁ : p₁.initialized = false := by rw [hp₁]; exact hi
    have heval := stop_eval_uninit p₁ hi₁
    have hfix : { p₁ with running := false } = p₁ := by rw [hp₁]
    rw [hfix] at heval
    refine ⟨[], heval, by simp [hi], by simp⟩
  · obtain ⟨es', hss', hall⟩ := stopServices_idem l l' svcEffs hss
    by_cases hsch : p.schedulerSet ∧ p.schedulerRunning
    · have hp₁eq := hy hsch
      have hi₁ : p₁.initialized = true := by rw [hp₁eq]; exact hi
      have hs₁ : p₁.services = some l' := by rw [hp₁eq]
      have heval := stop_eval_init p₁ l' l' es' hi₁ hs₁ hss'
      rw [if_neg (by rw [hp₁eq]; simp)] at heval
      have hfix : { p₁ with running := false, services := some l' } = p₁ := by
        rw [hp₁eq]
      rw [hfix] at heval
      have holm : p₁.ollama = p.ollama := by rw [hp₁eq]
      refine ⟨_, heval, ?_, ?_⟩
      · rw [List.filter_append, filter_isUnload_unloads,
            filter_isUnload_of_serviceStops es' hall, holm, if_pos hi]
        simp
      · intro x hx
        rcases List.mem_append.mp hx with hx | hx
        · obtain ⟨m, hm, hxeq⟩ := List.mem_map.mp hx
          exact Or.inl (hxeq ▸ rfl)
        · exact Or.inr (hall x hx)
    · have hp₁eq := hn hsch
      have hi₁ : p₁.initialized = true := by rw [hp₁eq]; exact hi
      have hs₁ : p₁.services = some l' := by rw [hp₁eq]
      have heval := stop_eval_init p₁ l' l' es' hi₁ hs₁ hss'
      rw [if_neg (by rw [hp₁eq]; exact hsch)] at heval
      have hfix : { p₁ with running := false, services := some l' } = p₁ := by
        rw [hp₁eq]
      rw [hfix] at heval
      have holm : p₁.ollama = p.ollama := by rw [hp₁eq]
      refine ⟨_, heval, ?_, ?_⟩
      · rw [List.filter_append, filter_isUnload_unloads,
            filter_isUnload_of_serviceStops es' hall, holm, if_pos hi]
        simp
      · intro x hx
        rcases List.mem_append.mp hx with hx | hx
        · obtain ⟨m, hm, hxeq⟩ := List.mem_map.mp hx
          exact Or.inl (hxeq ▸ rfl)
        · exact Or.inr (hall x hx)

/-- Claim C5 (amended), witness: the amended theorem applied to the concrete
initialized orchestrator `pDouble` after its first `stop()`. -/
theorem stop_twice_state_fixed_unloads_repeat_witness :
    ∃ e₂, Program.stop pDouble1 = .ok (pDouble1, e₂) ∧
      e₂.filter isUnload =
        (if pDouble.initialized then
           pDouble.ollama.running_models.map (fun m => Eff.unload m.name)
         else []) ∧
      ∀ x ∈ e₂, isUnload x = true ∨ ∃ n, x = Eff.serviceStop n :=
  stop_twice_state_fixed_unloads_repeat pDouble pDouble1
    [Eff.unload "m-running", Eff.schedShutdown] rfl

/-! ### Claim C6 -/

/-- Claim C6 (confirmed).  Whenever an initialized orchestrator's shutdown
sequence completes, its effect trace decomposes as: first exactly one unload
per entry of the running-model list (in list order, one apiece), then only
service-stop effects (the orchestrator invoking each initialized service's
`stop()` and the services closing their clients), then only the scheduler
shutdown — so every unload precedes every service stop, and every service
stop precedes the scheduler shutdown. -/
theorem stop_unloads_then_services_then_scheduler (p p' : Program)
    (effs : List Eff) (hi : p.initialized = true)
    (h : Program.stop p = .ok (p', effs)) :
    ∃ svc sched,
      effs = p.ollama.running_models.map (fun m => Eff.unload m.name) ++ svc ++ sched ∧
      (∀ x ∈ svc, isServiceEff x = true) ∧
      (∀ x ∈ sched, x = Eff.schedShutdown) := by
  rcases stop_ok_cases p p' effs h with ⟨hf, _, _⟩ | ⟨_, l, l', svcEffs, hs, hss, he, _, _⟩
  · rw [hi] at hf
    cases hf
  · refine ⟨svcEffs,
      (if p.schedulerSet ∧ p.schedulerRunning then [Eff.schedShutdown] else []),
      he, stopServices_effects l l' svcEffs hss, ?_⟩
    intro x hx
    by_cases hsch : p.schedulerSet ∧ p.schedulerRunning
    · rw [if_pos hsch] at hx
      simpa using hx
    · rw [if_neg hsch] at hx
      cases hx

/-- Claim C6 (confirmed), witness: the ordering theorem applied to the
concrete orchestrator `pW6` — two resident models, one running service, a
running scheduler — whose full shutdown trace is computed explicitly. -/
theorem stop_unloads_then_services_then_scheduler_witness :
    ∃ svc sched,
      [Eff.unload "m-running", Eff.unload "mB", Eff.serviceStop "discord",
       Eff.clientClose "discord", Eff.schedShutdown] =
        pW6.ollama.running_models.map (fun m => Eff.unload m.name) ++ svc ++ sched ∧
      (∀ x ∈ svc, isServiceEff x = true) ∧
      (∀ x ∈ sched, x = Eff.schedShutdown) :=
  stop_unloads_then_services_then_scheduler pW6 pW6out
    [Eff.unload "m-running", Eff.unload "mB", Eff.serviceStop "discord",
     Eff.clientClose "discord", Eff.schedShutdown] rfl rfl

/-! ### Claim C8 -/

/-- Claim C8 (confirmed).  If every service in the orchestrator's services
mapping has `validate()` returning false, then for every fuel bound the
start sequence is still inside the `WaitingForValidConfig` polling loop —
the aggregate gate `any(service.validate())` never passes — having performed
at most the initial default-settings write, and no service thread has been
started. -/
theorem all_invalid_services_wait_forever (p : Program) (l : List Service)
    (hs : p.services = some l) (hv : ∀ s ∈ l, s.validate = false)
    (sfe : Bool) (fuel : Nat) :
    Program.start p sfe fuel = .waiting (if sfe then [] else [Eff.saveSettings]) ∧
      ∀ n, Eff.serviceThreadStart n ∉
        (if sfe then ([] : List Eff) else [Eff.saveSettings]) := by
  have hvf : p.validate_services = .ok false := by
    rw [validate_services_some p l hs]
    have : l.any Service.validate = false := by
      rw [List.any_eq_false]
      intro s hsl
      rw [hv s hsl]
      exact Bool.false_ne_true
    rw [this]
  refine ⟨startLoop_waiting p _ hvf fuel, ?_⟩
  intro n
  cases sfe <;> simp

/-- Claim C8 (confirmed), witness: a concrete orchestrator holding one
service with an empty token (never valid) stays waiting after three polls
with no thread started. -/
theorem all_invalid_services_wait_forever_witness :
    Program.start pW8 true 3 = .waiting (if true then [] else [Eff.saveSettings]) ∧
      ∀ n, Eff.serviceThreadStart n ∉
        (if true then ([] : List Eff) else [Eff.saveSettings]) :=
  all_invalid_services_wait_forever pW8 [discordInit ""] rfl (by decide) true 3

/-! ### Claim C10 -/

/-- Claim C10 (confirmed).  In every reachable orchestrator state the
supervised services mapping is empty — the constructor either leaves the
attribute unassigned (early return) or assigns the empty mapping, and no
operation ever inserts into it (the chat-platform service lives in the
separate `discord` field) — therefore `validate_services()` never returns
true (over the empty mapping it returns false), `start()` can never leave
the wait loop, and no shutdown ever stops a service through the mapping. -/
theorem services_mapping_always_empty (p : Program) (hp : Reach p) :
    (p.services = none ∨ p.services = some []) ∧
    (∀ b, p.validate_services = .ok b → b = false) ∧
    (∀ sfe fuel q e, Program.start p sfe fuel ≠ .started q e) ∧
    (∀ q e, Program.stop p = .ok (q, e) → ∀ n, Eff.serviceStop n ∉ e) := by
  have hinv := reach_services_empty p hp
  refine ⟨hinv, ?_, ?_, ?_⟩
  · intro b hb
    rcases hinv with hno | hse
    · unfold Program.validate_services at hb
      rw [hno] at hb
      cases hb
    · rw [validate_services_some p [] hse] at hb
      injection hb with hb
      exact hb.symm
  · intro sfe fuel q e hstart
    obtain ⟨hvt, _⟩ := startLoop_started p _ fuel q e hstart
    rcases hinv with hno | hse
    · unfold Program.validate_services at hvt
      rw [hno] at hvt
      cases hvt
    · rw [validate_services_some p [] hse] at hvt
      injection hvt with hb
      cases hb
  · intro q e hstop n hmem
    rcases stop_ok_cases p q e hstop with ⟨_, _, he0⟩ | ⟨_, l, l', svcEffs, hs, hss, he, _, _⟩
    · subst he0
      cases hmem
    · rcases hinv with hno | hse
      · rw [hs] at hno
        cases hno
      · rw [hs] at hse
        injection hse with hse
        subst hse
        have hse0 : svcEffs = [] := by
          unfold stopServices at hss
          injection hss with hss
          injection hss with h1 h2
          exact h2.symm
        subst hse0
        rw [he] at hmem
        rcases List.mem_append.mp hmem with h1 | h2
        · rcases List.mem_append.mp h1 with h1a | h1b
          · obtain ⟨m, hm, heq⟩ := List.mem_map.mp h1a
            simp at heq
          · cases h1b
        · by_cases hsch : p.schedulerSet ∧ p.schedulerRunning
          · rw [if_pos hsch] at h2
            simp at h2
          · rw [if_neg hsch] at h2
            cases h2

/-- Claim C10 (confirmed), witness: the invariant theorem applied to the
concrete reachable state produced by constructing the orchestrator against a
backend with no models and default settings. -/
theorem services_mapping_always_empty_witness :
    (pInitW.services = none ∨ pInitW.services = some []) ∧
    (∀ b, pInitW.validate_services = .ok b → b = false) ∧
    (∀ sfe fuel q e, Program.start pInitW sfe fuel ≠ .started q e) ∧
    (∀ q e, Program.stop pInitW = .ok (q, e) → ∀ n, Eff.serviceStop n ∉ e) :=
  services_mapping_always_empty pInitW
    (Reach.init .ok (.ok []) [] {} pInitW
      [Eff.pull "llama3.2", Eff.load "llama3.2"] rfl)

end Ragnar
